import Mathlib

/-!
Verification of the scoring core of the NSE top-gainer predictor
(`script.py`, class `NSEGainerPredictor`).

The embedding models the pure decision logic: the indicator calculator
(`analyze_stock_strength` steps 1-4 together with its helpers
`_analyze_trend`, `_calculate_support_resistance`, `_analyze_volume`),
the scoring engine (`_predict_will_stay_up`) and the candidate selector
(`select_safe_stocks`).  Prices and percentages are embedded as rationals;
the Python dictionary of per-symbol indicators becomes a structure of
`Option`-valued fields, `none` standing for "key absent from the dict".
The history a symbol may or may not have is an `Option (List Bar)`, most
recent bar last, matching the pandas frame the helpers receive.
-/

/-- One parsed snapshot record, as assembled by `get_top_gainers_from_nse`
(each parsed dict always carries all of these keys). -/
structure Quote where
  last_price : ℚ
  open_price : ℚ
  prev_close : ℚ
  day_high : ℚ
  day_low : ℚ
  gain_percent : ℚ
  volume : ℚ
deriving DecidableEq, Repr

/-- One daily history bar (the OHLCV columns the helpers read). -/
structure Bar where
  high : ℚ
  low : ℚ
  close : ℚ
  volume : ℚ
deriving DecidableEq, Repr

/-- The per-symbol indicator dictionary built by `analyze_stock_strength`:
a field is `none` exactly when the corresponding key is absent from the
Python dict.  Only the keys the scoring engine and the claims read are
modelled (the echoed raw quote fields, `rsi`, `support_distance_pct` and
`volume_ratio` are carried alongside in the dict but never read by
`_predict_will_stay_up`). -/
structure IndicatorSet where
  position_in_range : Option ℚ := none
  near_high : Option Bool := none
  far_from_low : Option Bool := none
  above_prev_close : Option Bool := none
  above_open : Option Bool := none
  above_ma5 : Option Bool := none
  above_ma10 : Option Bool := none
  above_ma20 : Option Bool := none
  uptrend_5d : Option Bool := none
  rsi_safe : Option Bool := none
  support_level : Option ℚ := none
  resistance_level : Option ℚ := none
  above_support : Option Bool := none
  high_volume : Option Bool := none
deriving DecidableEq, Repr

/-- `series.rolling(window=k).mean().iloc[-1]` on a fully populated window:
the mean of the last `k` entries.  Also used for pandas `tail(k).mean()`,
which agrees with it when the series has at least `k` entries. -/
def rollingMeanLast (k : ℕ) (xs : List ℚ) : ℚ :=
  (xs.drop (xs.length - k)).sum / k

/-- The `Close` column of a history frame. -/
def closes (bars : List Bar) : List ℚ := bars.map Bar.close

/-- RSI(14) exactly as `_analyze_trend` computes it: `delta = Close.diff()`
(whose leading NaN the `where(..., 0)` masks turn into 0), mean gain and
mean loss over the trailing 14 entries, `rs = gain/loss` when the loss is
nonzero and 0 otherwise, `rsi = 100 - 100/(1+rs)`. -/
def rsiOf (bars : List Bar) : ℚ :=
  let cs := closes bars
  let ds := List.zipWith (fun a b => a - b) (cs.drop 1) cs
  let gains := 0 :: ds.map (fun d => if 0 < d then d else 0)
  let losses := 0 :: ds.map (fun d => if d < 0 then -d else 0)
  let gain := rollingMeanLast 14 gains
  let loss := rollingMeanLast 14 losses
  let rs := if loss ≠ 0 then gain / loss else 0
  100 - 100 / (1 + rs)

/-- `_analyze_trend(hist_data, current_price)`: returns only the trend keys
(the other fields stay at their `none` default).  With fewer than 5 bars the
dict comes back empty.  Otherwise `above_ma5/10/20` are always set: the code
writes `current_price > latest['MAk'] if pd.notna(latest['MAk']) else False`,
and the rolling mean is NaN exactly when the window is not fully populated,
so an unpopulated window yields the value `False`, not an absent key.
The source's inner `len(hist_data) >= 5` guard before `uptrend_5d` is
subsumed by the top guard.  `rsi_safe` is set only with at least 14 bars. -/
def analyze_trend (bars : List Bar) (current_price : ℚ) : IndicatorSet :=
  if bars.length < 5 then {}
  else
    { above_ma5 := some (decide (current_price > rollingMeanLast 5 (closes bars)))
      above_ma10 := some (if 10 ≤ bars.length then
          decide (current_price > rollingMeanLast 10 (closes bars)) else false)
      above_ma20 := some (if 20 ≤ bars.length then
          decide (current_price > rollingMeanLast 20 (closes bars)) else false)
      uptrend_5d := some (decide (List.Chain' (· ≤ ·)
          ((closes bars).drop ((closes bars).length - 5))))
      rsi_safe := if 14 ≤ bars.length then
          some (decide (30 < rsiOf bars ∧ rsiOf bars < 70)) else none }

/-- `_calculate_support_resistance(hist_data)`: `(support, resistance)` =
(min `Low`, max `High`) over the trailing 10 bars, both absent with fewer
than 10 bars (the `[]` match arms are unreachable under the length guard). -/
def calculate_support_resistance (bars : List Bar) : Option ℚ × Option ℚ :=
  if bars.length < 10 then (none, none)
  else
    let lows := (bars.drop (bars.length - 10)).map Bar.low
    let highs := (bars.drop (bars.length - 10)).map Bar.high
    (match lows with
      | [] => none
      | x :: xs => some (xs.foldl min x),
     match highs with
      | [] => none
      | x :: xs => some (xs.foldl max x))

/-- `_analyze_volume(current_volume, symbol)`: the `high_volume` key, present
when the (re-fetched) history has at least 5 bars and the trailing 5-day
average volume is positive; `high_volume = volume_ratio > 1.5`. -/
def analyze_volume (current_volume : ℚ) (hist : Option (List Bar)) : Option Bool :=
  match hist with
  | some bars =>
      if 5 ≤ bars.length then
        let avg_volume_5d := rollingMeanLast 5 (bars.map Bar.volume)
        if 0 < avg_volume_5d then
          some (decide (3/2 < current_volume / avg_volume_5d))
        else none
      else none
  | none => none

/-- `analyze_stock_strength(symbol, current_data)` with the history fetch
abstracted into the `hist` argument (`none` = fetch failed or empty frame;
an empty bar list behaves identically to `none` since every history-derived
key is gated on a length threshold).  Field by field:
* range keys (source step 1) exist only when `price_range > 0`;
  `position_in_range` is referenced only under that guard, so the otherwise
  meaningless division never surfaces;
* gap keys (source step 2): the `above_open` assignment is nested inside the
  `prev_close > 0` block, so its presence also requires a positive prev
  close;
* trend, support and volume keys come from the helpers above; `above_support`
  is set exactly when `support_level` is (source step 3). -/
def analyze_stock_strength (q : Quote) (hist : Option (List Bar)) : IndicatorSet :=
  let price_range := q.day_high - q.day_low
  let position_in_range := (q.last_price - q.day_low) / price_range * 100
  let trend := match hist with
    | some bars => analyze_trend bars q.last_price
    | none => ({} : IndicatorSet)
  let support_level := match hist with
    | some bars => (calculate_support_resistance bars).1
    | none => none
  { position_in_range := if 0 < price_range then some position_in_range else none
    near_high := if 0 < price_range then
        some (decide (q.day_high - q.last_price < price_range * (1/10))) else none
    far_from_low := if 0 < price_range then
        some (decide (position_in_range > 70)) else none
    above_prev_close := if 0 < q.prev_close then
        some (decide (q.last_price > q.prev_close)) else none
    above_open := if 0 < q.prev_close ∧ 0 < q.open_price then
        some (decide (q.last_price > q.open_price)) else none
    above_ma5 := trend.above_ma5
    above_ma10 := trend.above_ma10
    above_ma20 := trend.above_ma20
    uptrend_5d := trend.uptrend_5d
    rsi_safe := trend.rsi_safe
    support_level := support_level
    resistance_level := match hist with
      | some bars => (calculate_support_resistance bars).2
      | none => none
    above_support := support_level.map (fun s => decide (q.last_price > s))
    high_volume := analyze_volume q.volume hist }

/-- Bucket 1 of `_predict_will_stay_up` (`current_score`, cap 30): tiered
points for `position_in_range` (highest applicable tier only), +10 for
`near_high`, +5 for `far_from_low`; absent keys contribute 0 (the dict
lookups use `in` / `.get(..., False)`). -/
def current_score (a : IndicatorSet) : ℕ :=
  let s : ℕ := match a.position_in_range with
    | some p => if p > 80 then 15 else if p > 60 then 10 else if p > 40 then 5 else 0
    | none => 0
  let s := s + (if a.near_high.getD false then 10 else 0)
  let s := s + (if a.far_from_low.getD false then 5 else 0)
  min s 30

/-- Bucket 2 of `_predict_will_stay_up` (`trend_score`, cap 30): +5 for each
of `above_ma5/10/20`, +10 for `uptrend_5d`, +5 for `rsi_safe`. -/
def trend_score (a : IndicatorSet) : ℕ :=
  let s : ℕ := if a.above_ma5.getD false then 5 else 0
  let s := s + (if a.above_ma10.getD false then 5 else 0)
  let s := s + (if a.above_ma20.getD false then 5 else 0)
  let s := s + (if a.uptrend_5d.getD false then 10 else 0)
  let s := s + (if a.rsi_safe.getD false then 5 else 0)
  min s 30

/-- Bucket 3 of `_predict_will_stay_up` (`support_score`, cap 20): +10 for
`above_support`, +5 for `high_volume`, +3 for `above_open`, +2 for
`above_prev_close`. -/
def support_score (a : IndicatorSet) : ℕ :=
  let s : ℕ := if a.above_support.getD false then 10 else 0
  let s := s + (if a.high_volume.getD false then 5 else 0)
  let s := s + (if a.above_open.getD false then 3 else 0)
  let s := s + (if a.above_prev_close.getD false then 2 else 0)
  min s 20

/-- Bucket 4 of `_predict_will_stay_up` (`gain_score`, cap 20): 15 for a
moderate gain in [2,8], 5 above 8, 10 in (0,2), otherwise 0. -/
def gain_score (gain_pct : ℚ) : ℕ :=
  let s : ℕ := if 2 ≤ gain_pct ∧ gain_pct ≤ 8 then 15
    else if gain_pct > 8 then 5
    else if gain_pct > 0 then 10 else 0
  min s 20

/-- The composite `score` accumulated by `_predict_will_stay_up`. -/
def composite_score (a : IndicatorSet) (gain_pct : ℚ) : ℕ :=
  current_score a + trend_score a + support_score a + gain_score gain_pct

/-- `confidence = min(95, 50 + score * 0.45)`. -/
def confidence (score : ℕ) : ℚ := min 95 (50 + (score : ℚ) * (45/100))

/-- The verdict of `_predict_will_stay_up`:
`score >= 60 and analysis.get('above_support', False) and
analysis.get('position_in_range', 0) > 50`. -/
def will_stay_up (a : IndicatorSet) (gain_pct : ℚ) : Bool :=
  decide (60 ≤ composite_score a gain_pct) && a.above_support.getD false
    && decide (a.position_in_range.getD 0 > 50)

/-- What `select_safe_stocks` reads off each analysis dict: its confidence,
its raw gain percentage and its verdict (all always present by the time the
selector runs, with the `.get` defaults never taken). -/
structure ScoredCandidate where
  confidence : ℚ
  gain_percent : ℚ
  will_stay_up : Bool
deriving DecidableEq, Repr

/-- Descending-by-confidence order used by the fallback
`sorted(..., key=lambda x: x.get('confidence', 0), reverse=True)`. -/
def confGE (a b : ScoredCandidate) : Prop := b.confidence ≤ a.confidence

instance : DecidableRel confGE := fun a b =>
  inferInstanceAs (Decidable (b.confidence ≤ a.confidence))

instance : IsTotal ScoredCandidate confGE :=
  ⟨fun a b => (le_total b.confidence a.confidence).elim Or.inl Or.inr⟩

instance : IsTrans ScoredCandidate confGE :=
  ⟨fun _ _ _ hab hbc => le_trans hbc hab⟩

/-- Descending lexicographic order on `(confidence, gain_percent)` used by
the final `sorted(..., key=lambda x: (confidence, gain_percent),
reverse=True)`. -/
def lexGE (a b : ScoredCandidate) : Prop :=
  b.confidence < a.confidence ∨
    (b.confidence = a.confidence ∧ b.gain_percent ≤ a.gain_percent)

instance : DecidableRel lexGE := fun a b =>
  inferInstanceAs (Decidable (b.confidence < a.confidence ∨
    (b.confidence = a.confidence ∧ b.gain_percent ≤ a.gain_percent)))

instance : IsTotal ScoredCandidate lexGE := by
  constructor
  intro a b
  rcases lt_trichotomy b.confidence a.confidence with h | h | h
  · exact Or.inl (Or.inl h)
  · rcases le_total b.gain_percent a.gain_percent with hg | hg
    · exact Or.inl (Or.inr ⟨h, hg⟩)
    · exact Or.inr (Or.inr ⟨h.symm, hg⟩)
  · exact Or.inr (Or.inl h)

instance : IsTrans ScoredCandidate lexGE := by
  constructor
  intro a b c hab hbc
  rcases hab with h1 | ⟨h1, h1g⟩ <;> rcases hbc with h2 | ⟨h2, h2g⟩
  · exact Or.inl (lt_trans h2 h1)
  · exact Or.inl (lt_of_le_of_lt (le_of_eq h2) h1)
  · exact Or.inl (lt_of_lt_of_le h2 (le_of_eq h1))
  · exact Or.inr ⟨h2.trans h1, le_trans h2g h1g⟩

/-- `select_safe_stocks(analysis_results)`: empty input returns `[]`;
otherwise filter the verdict-true candidates, fall back to the top 3 by
confidence (a stable descending sort, matching Python's) when none pass,
then stably sort by descending `(confidence, gain_percent)` and keep at
most 5. -/
def select_safe_stocks (l : List ScoredCandidate) : List ScoredCandidate :=
  if l = [] then []
  else
    let staying_up := l.filter (fun a => a.will_stay_up)
    let pool := if staying_up = [] then (List.insertionSort confGE l).take 3 else staying_up
    (List.insertionSort lexGE pool).take 5

/-- The worked example quote: symbol ABC, last 105, open 100, previous close
98, high 106, low 99, +5 percent, volume 200000, no history available. -/
def exampleQuote : Quote :=
  { last_price := 105, open_price := 100, prev_close := 98, day_high := 106,
    day_low := 99, gain_percent := 5, volume := 200000 }

/-- The indicator dict the example quote yields with no history. -/
def exampleIndicators : IndicatorSet := analyze_stock_strength exampleQuote none

/-- A quote whose day range is degenerate (high = low). -/
def flatQuote : Quote :=
  { last_price := 100, open_price := 100, prev_close := 99, day_high := 100,
    day_low := 100, gain_percent := 1, volume := 1000 }

/-- A quote with a positive open price but a non-positive previous close. -/
def noPrevCloseQuote : Quote :=
  { last_price := 105, open_price := 100, prev_close := 0, day_high := 106,
    day_low := 99, gain_percent := 5, volume := 0 }

/-- A quote trading within 10 percent of its day high. -/
def nearHighQuote : Quote :=
  { last_price := 219/2, open_price := 100, prev_close := 100, day_high := 110,
    day_low := 100, gain_percent := 5, volume := 1000 }

/-- A 5-bar history: long enough for the trend keys, too short for the
10- and 20-bar windows. -/
def fiveBars : List Bar :=
  [⟨1, 1, 1, 1⟩, ⟨1, 1, 1, 1⟩, ⟨1, 1, 1, 1⟩, ⟨1, 1, 1, 1⟩, ⟨1, 1, 1, 1⟩]

/-- C1: the verdict is true exactly when the composite score is at least 60,
`above_support` is present and true, and `position_in_range` is present and
above 50.  A missing `above_support` or `position_in_range` key therefore
counts as false, never as true; in particular the verdict is false whenever
`above_support` is absent or false, whatever the composite score. -/
theorem will_stay_up_iff_conditions (a : IndicatorSet) (g : ℚ) :
    will_stay_up a g = true ↔
      (60 ≤ composite_score a g ∧ a.above_support = some true ∧
        ∃ p, a.position_in_range = some p ∧ 50 < p) := by
  rcases hs : a.above_support with _ | b <;> rcases hp : a.position_in_range with _ | p <;>
    simp [will_stay_up, hs, hp, Bool.and_eq_true, decide_eq_true_eq, and_assoc]

/-- C2: the confidence of a composite score is exactly
`min(95, 50 + score * 0.45)`, it always lies in `[50, 95]`, and the mapping
is monotone non-decreasing in the score. -/
theorem confidence_affine_bounded_monotone (a : IndicatorSet) (g : ℚ) :
    confidence (composite_score a g) =
      min 95 (50 + (composite_score a g : ℚ) * (45/100)) ∧
    50 ≤ confidence (composite_score a g) ∧
    confidence (composite_score a g) ≤ 95 ∧
    ∀ s t : ℕ, s ≤ t → confidence s ≤ confidence t := by
  refine ⟨rfl, ?_, ?_, ?_⟩
  · unfold confidence
    have h0 : (0 : ℚ) ≤ (composite_score a g : ℚ) := Nat.cast_nonneg _
    refine le_min (by norm_num) ?_
    nlinarith
  · unfold confidence
    exact min_le_left _ _
  · intro s t hst
    unfold confidence
    have hc : (s : ℚ) ≤ (t : ℚ) := Nat.cast_le.mpr hst
    refine min_le_min le_rfl ?_
    nlinarith

/-- C3: each scoring bucket is clamped to its cap (30, 30, 20, 20) before
summing, the composite score is exactly the sum of the four clamped
buckets, and it lies in `[0, 100]`. -/
theorem composite_score_bucket_caps (a : IndicatorSet) (g : ℚ) :
    current_score a ≤ 30 ∧ trend_score a ≤ 30 ∧ support_score a ≤ 20 ∧
    gain_score g ≤ 20 ∧
    composite_score a g =
      current_score a + trend_score a + support_score a + gain_score g ∧
    composite_score a g ≤ 100 := by
  have h1 : current_score a ≤ 30 := by unfold current_score; exact min_le_right _ _
  have h2 : trend_score a ≤ 30 := by unfold trend_score; exact min_le_right _ _
  have h3 : support_score a ≤ 20 := by unfold support_score; exact min_le_right _ _
  have h4 : gain_score g ≤ 20 := by unfold gain_score; exact min_le_right _ _
  refine ⟨h1, h2, h3, h4, rfl, ?_⟩
  unfold composite_score
  omega

/-- C9: the gain bucket never exceeds 15 (its 20-point cap is unattainable,
though 15 itself is attained, e.g. at a 5 percent gain), so the composite
score never exceeds 95 and the confidence never exceeds 92.75 — the 95
ceiling of the confidence mapping is never attained. -/
theorem gain_cap_never_reached :
    (∀ (a : IndicatorSet) (g : ℚ),
      gain_score g ≤ 15 ∧ composite_score a g ≤ 95 ∧
      confidence (composite_score a g) ≤ 371/4 ∧
      confidence (composite_score a g) < 95) ∧
    gain_score 5 = 15 := by
  have hg : ∀ g : ℚ, gain_score g ≤ 15 := by
    intro g
    unfold gain_score
    split_ifs <;> decide
  have hcs : ∀ (a : IndicatorSet) (g : ℚ), composite_score a g ≤ 95 := by
    intro a g
    have h1 : current_score a ≤ 30 := by unfold current_score; exact min_le_right _ _
    have h2 : trend_score a ≤ 30 := by unfold trend_score; exact min_le_right _ _
    have h3 : support_score a ≤ 20 := by unfold support_score; exact min_le_right _ _
    have h4 := hg g
    unfold composite_score
    omega
  refine ⟨fun a g => ⟨hg g, hcs a g, ?_, ?_⟩, ?_⟩
  · unfold confidence
    have hle : ((composite_score a g : ℚ)) ≤ 95 := by
      exact_mod_cast hcs a g
    refine le_trans (min_le_right _ _) ?_
    nlinarith
  · unfold confidence
    refine lt_of_le_of_lt (min_le_right _ _) ?_
    have hle : ((composite_score a g : ℚ)) ≤ 95 := by
      exact_mod_cast hcs a g
    nlinarith
  · unfold gain_score
    norm_num

/-- C6: when the day range is degenerate (`day_high ≤ day_low`, in
particular equal), the keys `position_in_range`, `near_high` and
`far_from_low` are all absent; the computation is total, so no division by
zero or error can arise. -/
theorem degenerate_range_omits_keys (q : Quote) (hist : Option (List Bar))
    (h : q.day_high ≤ q.day_low) :
    (analyze_stock_strength q hist).position_in_range = none ∧
    (analyze_stock_strength q hist).near_high = none ∧
    (analyze_stock_strength q hist).far_from_low = none := by
  have hr : ¬ (0 < q.day_high - q.day_low) := by
    rw [sub_pos]
    exact not_lt.mpr h
  refine ⟨?_, ?_, ?_⟩ <;> simp [analyze_stock_strength, hr]

/-- Witness for C6 at a quote with `day_high = day_low = 100`. -/
theorem degenerate_range_omits_keys_witness :
    (analyze_stock_strength flatQuote none).position_in_range = none ∧
    (analyze_stock_strength flatQuote none).near_high = none ∧
    (analyze_stock_strength flatQuote none).far_from_low = none :=
  degenerate_range_omits_keys flatQuote none (by decide)

/-- C7 fails on the code: with `prev_close = 0` and a positive open price
the key `above_open` is absent, because the source computes it only inside
the `prev_close > 0` block — its presence does not depend only on its own
reference price. -/
theorem above_open_requires_prev_close_cex :
    0 < noPrevCloseQuote.open_price ∧
    (analyze_stock_strength noPrevCloseQuote none).above_open = none := by
  constructor
  · decide
  · simp [analyze_stock_strength, noPrevCloseQuote]

/-- C7 (amended): `above_prev_close` is present exactly when `prev_close`
is positive and then equals `last_price > prev_close`; `above_open` is
present exactly when BOTH `prev_close` and `open_price` are positive (its
presence also depends on the previous close, since the source nests the
open check inside the prev-close block) and then equals
`last_price > open_price`. -/
theorem gap_keys_presence (q : Quote) (hist : Option (List Bar)) :
    ((analyze_stock_strength q hist).above_prev_close.isSome ↔ 0 < q.prev_close) ∧
    ((analyze_stock_strength q hist).above_open.isSome ↔
      0 < q.prev_close ∧ 0 < q.open_price) ∧
    (0 < q.prev_close →
      (analyze_stock_strength q hist).above_prev_close =
        some (decide (q.last_price > q.prev_close))) ∧
    (0 < q.prev_close → 0 < q.open_price →
      (analyze_stock_strength q hist).above_open =
        some (decide (q.last_price > q.open_price))) := by
  refine ⟨?_, ?_, fun h => ?_, fun h1 h2 => ?_⟩
  · by_cases h : 0 < q.prev_close <;> simp [analyze_stock_strength, h]
  · by_cases h1 : 0 < q.prev_close <;> by_cases h2 : 0 < q.open_price <;>
      simp [analyze_stock_strength, h1, h2]
  · simp [analyze_stock_strength, h]
  · simp [analyze_stock_strength, h1, h2]

/-- C10: with a non-degenerate range, a true `near_high` forces
`position_in_range > 90`, hence `far_from_low` is true and the highest
position tier applies, so the position bucket is exactly its cap
30 = 15 + 10 + 5. -/
theorem near_high_full_position_bucket (q : Quote) (hist : Option (List Bar))
    (hr : q.day_low < q.day_high)
    (hn : (analyze_stock_strength q hist).near_high = some true) :
    (∃ p, (analyze_stock_strength q hist).position_in_range = some p ∧ 90 < p) ∧
    (analyze_stock_strength q hist).far_from_low = some true ∧
    current_score (analyze_stock_strength q hist) = 30 := by
  have hr0 : 0 < q.day_high - q.day_low := sub_pos.mpr hr
  have hn' : q.day_high - q.last_price < (q.day_high - q.day_low) * (1/10) := by
    simpa [analyze_stock_strength, hr0] using hn
  have hp90 : 90 < (q.last_price - q.day_low) / (q.day_high - q.day_low) * 100 := by
    rw [div_mul_eq_mul_div, lt_div_iff₀ hr0]
    nlinarith
  have hpos : (analyze_stock_strength q hist).position_in_range =
      some ((q.last_price - q.day_low) / (q.day_high - q.day_low) * 100) := by
    simp [analyze_stock_strength, hr0]
  have h70 : (q.last_price - q.day_low) / (q.day_high - q.day_low) * 100 > 70 := by
    linarith
  have hfar : (analyze_stock_strength q hist).far_from_low = some true := by
    simp only [analyze_stock_strength]
    rw [if_pos hr0]
    simpa [decide_eq_true_eq] using h70
  have h80 : (q.last_price - q.day_low) / (q.day_high - q.day_low) * 100 > 80 := by
    linarith
  refine ⟨⟨_, hpos, hp90⟩, hfar, ?_⟩
  simp [current_score, hpos, hn, hfar, h80]

/-- Witness for C10 at a quote with range 100-110 and last price 109.5. -/
theorem near_high_full_position_bucket_witness :
    (∃ p, (analyze_stock_strength nearHighQuote none).position_in_range = some p ∧ 90 < p) ∧
    (analyze_stock_strength nearHighQuote none).far_from_low = some true ∧
    current_score (analyze_stock_strength nearHighQuote none) = 30 :=
  near_high_full_position_bucket nearHighQuote none (by norm_num [nearHighQuote])
    (by norm_num [analyze_stock_strength, nearHighQuote])

/-- C8 fails on the code: with a 5-bar history the 10-bar window is not
fully populated, yet `above_ma10` is present with value `false` (the source
writes `... if pd.notna(...) else False`), so "not computed" is not
distinguishable from "computed as false". -/
theorem above_ma10_present_with_five_bars_cex :
    fiveBars.length < 10 ∧
    (analyze_stock_strength noPrevCloseQuote (some fiveBars)).above_ma10 = some false ∧
    (analyze_stock_strength noPrevCloseQuote (some fiveBars)).above_ma20 = some false := by
  refine ⟨by decide, ?_, ?_⟩ <;>
    simp [analyze_stock_strength, analyze_trend, fiveBars]

/-- C8 (amended): with at least 5 bars the keys `above_ma5`, `above_ma10`
and `above_ma20` are all present; a key whose rolling window is fully
populated holds the comparison of the last price with that rolling mean,
while a key whose window is not fully populated is set to `false` rather
than omitted.  With fewer than 5 bars all three keys are absent. -/
theorem ma_keys_presence (q : Quote) (bars : List Bar) :
    (5 ≤ bars.length →
      (analyze_stock_strength q (some bars)).above_ma5 =
        some (decide (q.last_price > rollingMeanLast 5 (closes bars))) ∧
      (bars.length < 10 →
        (analyze_stock_strength q (some bars)).above_ma10 = some false) ∧
      (10 ≤ bars.length →
        (analyze_stock_strength q (some bars)).above_ma10 =
          some (decide (q.last_price > rollingMeanLast 10 (closes bars)))) ∧
      (bars.length < 20 →
        (analyze_stock_strength q (some bars)).above_ma20 = some false) ∧
      (20 ≤ bars.length →
        (analyze_stock_strength q (some bars)).above_ma20 =
          some (decide (q.last_price > rollingMeanLast 20 (closes bars))))) ∧
    (bars.length < 5 →
      (analyze_stock_strength q (some bars)).above_ma5 = none ∧
      (analyze_stock_strength q (some bars)).above_ma10 = none ∧
      (analyze_stock_strength q (some bars)).above_ma20 = none) := by
  constructor
  · intro h5
    have h5' : ¬ (bars.length < 5) := not_lt.mpr h5
    refine ⟨?_, fun h10 => ?_, fun h10 => ?_, fun h20 => ?_, fun h20 => ?_⟩
    · simp [analyze_stock_strength, analyze_trend, h5']
    · simp [analyze_stock_strength, analyze_trend, h5', not_le.mpr h10]
    · simp [analyze_stock_strength, analyze_trend, h5', h10]
    · simp [analyze_stock_strength, analyze_trend, h5', not_le.mpr h20]
    · simp [analyze_stock_strength, analyze_trend, h5', h20]
  · intro h5
    refine ⟨?_, ?_, ?_⟩ <;> simp [analyze_stock_strength, analyze_trend, h5]

/-- C5: the worked example — Quote(ABC, last 105, open 100, prev close 98,
high 106, low 99, +5 percent, volume 200000) with no history — yields
`position_in_range = 600/7` (between 85 and 86), `near_high = false`,
`above_open = true`, `above_prev_close = true`, position bucket 20, trend
bucket 0, support/volume bucket 5, gain bucket 15, composite score 40,
confidence 68, and a false verdict. -/
theorem example_quote_pipeline :
    exampleIndicators.position_in_range = some (600/7) ∧
    (85 : ℚ) < 600/7 ∧ (600 : ℚ)/7 < 86 ∧
    exampleIndicators.near_high = some false ∧
    exampleIndicators.above_open = some true ∧
    exampleIndicators.above_prev_close = some true ∧
    current_score exampleIndicators = 20 ∧
    trend_score exampleIndicators = 0 ∧
    support_score exampleIndicators = 5 ∧
    gain_score exampleQuote.gain_percent = 15 ∧
    composite_score exampleIndicators exampleQuote.gain_percent = 40 ∧
    confidence (composite_score exampleIndicators exampleQuote.gain_percent) = 68 ∧
    will_stay_up exampleIndicators exampleQuote.gain_percent = false := by
  have hind : exampleIndicators =
      { position_in_range := some (600/7), near_high := some false,
        far_from_low := some true, above_prev_close := some true,
        above_open := some true } := by
    norm_num [exampleIndicators, analyze_stock_strength, analyze_volume,
      exampleQuote, decide_eq_true_eq, decide_eq_false_iff_not]
  rw [hind]
  norm_num [current_score, trend_score, support_score, gain_score,
    composite_score, confidence, will_stay_up, exampleQuote, min_def,
    Option.getD]

/-- lexGE refines confGE: descending lexicographic order on
`(confidence, gain_percent)` is in particular descending on confidence. -/
theorem lexGE_imp_confGE (a b : ScoredCandidate) (h : lexGE a b) : confGE a b := by
  rcases h with h | ⟨h, _⟩
  · exact le_of_lt h
  · exact le_of_eq h

/-- C4: the selector returns at most 5 candidates, sorted descending by the
lexicographic key `(confidence, gain_percent)` (hence descending by
confidence); when no candidate has a true verdict the output is a
descending-by-key arrangement of exactly the top 3 by confidence — a
permutation of the first 3 of the stably confidence-sorted input, of length
`min 3 |input|`, every member of which has confidence at least that of every
candidate left out; and the output is empty exactly when the input is. -/
theorem select_safe_stocks_spec (l : List ScoredCandidate) :
    (select_safe_stocks l).length ≤ 5 ∧
    List.Sorted lexGE (select_safe_stocks l) ∧
    List.Sorted confGE (select_safe_stocks l) ∧
    ((∀ c ∈ l, c.will_stay_up = false) →
      (select_safe_stocks l).Perm ((List.insertionSort confGE l).take 3) ∧
      (select_safe_stocks l).length = min 3 l.length ∧
      ∀ x ∈ select_safe_stocks l, ∀ y ∈ (List.insertionSort confGE l).drop 3,
        y.confidence ≤ x.confidence) ∧
    (select_safe_stocks l = [] ↔ l = []) := by
  by_cases hl : l = []
  · subst hl
    refine ⟨by simp [select_safe_stocks], by simp [select_safe_stocks], by
      simp [select_safe_stocks], fun _ => ?_, by simp [select_safe_stocks]⟩
    simp [select_safe_stocks, List.insertionSort]
  · have hsel : select_safe_stocks l =
        (List.insertionSort lexGE (if l.filter (fun a => a.will_stay_up) = []
          then (List.insertionSort confGE l).take 3
          else l.filter (fun a => a.will_stay_up))).take 5 := by
      simp [select_safe_stocks, hl]
    have hsorted_lex : List.Sorted lexGE (select_safe_stocks l) := by
      rw [hsel]
      exact List.Pairwise.sublist (List.take_sublist _ _)
        (List.sorted_insertionSort lexGE _)
    refine ⟨?_, hsorted_lex, ?_, fun hns => ?_, ?_⟩
    · rw [hsel, List.length_take]
      exact min_le_left _ _
    · exact hsorted_lex.imp (fun h => lexGE_imp_confGE _ _ h)
    · have hfil : l.filter (fun a => a.will_stay_up) = [] := by
        rw [List.filter_eq_nil_iff]
        intro a ha
        simp [hns a ha]
      rw [if_pos hfil] at hsel
      have hlen3 : ((List.insertionSort confGE l).take 3).length ≤ 3 := by
        rw [List.length_take]
        exact min_le_left _ _
      have hlenS :
          (List.insertionSort lexGE ((List.insertionSort confGE l).take 3)).length ≤ 3 := by
        rw [(List.perm_insertionSort lexGE _).length_eq]
        exact hlen3
      rw [List.take_of_length_le (le_trans hlenS (by norm_num))] at hsel
      refine ⟨?_, ?_, ?_⟩
      · rw [hsel]
        exact List.perm_insertionSort lexGE _
      · rw [hsel, (List.perm_insertionSort lexGE _).length_eq, List.length_take,
          (List.perm_insertionSort confGE l).length_eq]
      · intro x hx y hy
        rw [hsel] at hx
        have hx' : x ∈ (List.insertionSort confGE l).take 3 :=
          ((List.perm_insertionSort lexGE _).mem_iff).mp hx
        have hsorted : List.Pairwise confGE (List.insertionSort confGE l) :=
          List.sorted_insertionSort confGE l
        have h2 : List.Pairwise confGE ((List.insertionSort confGE l).take 3 ++
            (List.insertionSort confGE l).drop 3) := by
          rw [List.take_append_drop]
          exact hsorted
        exact (List.pairwise_append.mp h2).2.2 x hx' y hy
    · constructor
      · intro he
        exfalso
        have hplen : 1 ≤ (if l.filter (fun a => a.will_stay_up) = []
            then (List.insertionSort confGE l).take 3
            else l.filter (fun a => a.will_stay_up)).length := by
          split_ifs with hfil
          · rw [List.length_take, (List.perm_insertionSort confGE l).length_eq]
            have : 1 ≤ l.length := List.length_pos.mpr hl
            omega
          · exact List.length_pos.mpr hfil
        have := congrArg List.length he
        rw [hsel, List.length_take, (List.perm_insertionSort lexGE _).length_eq,
          List.length_nil] at this
        omega
      · intro he
        exact absurd he hl
